import Mathlib

/-!
Verification development for the photo-portfolio reconciliation engine and
its frontend gallery components.

The frontend components (`Home.jsx`, `AlbumDetail.jsx`, `Lightbox.jsx`,
`SyncButton.jsx`, `DeployButton.jsx`) are embedded directly from the
JavaScript source.  The backend reconciliation core (SyncReconciler,
PublishReconciler, MetadataExtractor, the concurrency guard) is not part of
the source tree — only its callers and documentation are — so those
definitions are modelled from the specification, as marked in their doc
comments.
-/

/-- Capture-metadata attributes of a photo.  Each field holds the extracted
value or the explicit sentinel string "Unknown" when the tag is absent. -/
structure CaptureMetadata where
  camera : String
  lens : String
  iso : String
  aperture : String
  shutter_speed : String
  date_taken : String
deriving Repr, DecidableEq

/-- Embedded tags of an image file; each attribute may be absent. -/
structure ExifTags where
  camera : Option String
  lens : Option String
  iso : Option String
  aperture : Option String
  shutter_speed : Option String
  date_taken : Option String
deriving Repr, DecidableEq

/-- An image file is either structurally corrupt or a valid image carrying
(possibly absent) embedded tags. -/
inductive Image where
  | corrupt
  | valid (tags : ExifTags)
deriving Repr, DecidableEq

/-- Error raised by metadata extraction on a structurally invalid file. -/
inductive MediaError where
  | corruptMediaError
deriving Repr, DecidableEq

/-- Modelled from the spec: MetadataExtractor (backend `photo_service.py` is
absent from the source tree).  Given image bytes it returns a best-effort
`capture_metadata` struct; any field it cannot determine is set to the
explicit "Unknown" sentinel rather than failing.  Only a structurally
invalid/corrupt file causes a `CorruptMediaError`. -/
def extract_metadata : Image → Except MediaError CaptureMetadata
  | Image.corrupt => Except.error MediaError.corruptMediaError
  | Image.valid t =>
      Except.ok
        { camera := t.camera.getD "Unknown"
          lens := t.lens.getD "Unknown"
          iso := t.iso.getD "Unknown"
          aperture := t.aperture.getD "Unknown"
          shutter_speed := t.shutter_speed.getD "Unknown"
          date_taken := t.date_taken.getD "Unknown" }

/-- One row of the metadata store. -/
structure PhotoRecord where
  id : String
  relative_path : String
  filename : String
  album : Option String
  signature : Nat
  capture_metadata : CaptureMetadata
  published : Bool
  custom_title : String
  description : String
  tags : List String
  notes : String
deriving Repr, DecidableEq

/-- One tuple produced by the FilesystemScanner: relative path, album
(immediate subfolder, none for root), change-detection signature, and the
image contents used for metadata extraction. -/
structure ScanItem where
  relative_path : String
  album : Option String
  signature : Nat
  image : Image
deriving Repr, DecidableEq

/-- Modelled from the spec: a photo's `id` is a pure function of its
relative path. -/
def photoId (relative_path : String) : String := relative_path

/-- The id of a scanned file. -/
def scanId (item : ScanItem) : String := photoId item.relative_path

/-- The filename component of a relative path (text after the last `/`). -/
def filenameOf (relative_path : String) : String :=
  String.mk ((relative_path.data.reverse.takeWhile (fun c => c ≠ '/')).reverse)

/-- Point lookup in the metadata store by id (first record matching). -/
def lookupRec (D : List PhotoRecord) (k : String) : Option PhotoRecord :=
  D.find? (fun r => r.id = k)

/-- Aggregate result of a `sync()` call. -/
structure SyncResult where
  added : Nat
  removed : Nat
  changed : Nat
  warnings : List String
deriving Repr, DecidableEq

/-- A fresh PhotoRecord inserted for a newly observed file: `published`
defaults to false and user-editable fields start empty. -/
def mkRecord (item : ScanItem) (cm : CaptureMetadata) : PhotoRecord :=
  { id := photoId item.relative_path
    relative_path := item.relative_path
    filename := filenameOf item.relative_path
    album := item.album
    signature := item.signature
    capture_metadata := cm
    published := false
    custom_title := ""
    description := ""
    tags := []
    notes := "" }

/-- Structural update of an already-known record: only `relative_path`,
`filename`, `album`, `signature` and `capture_metadata` change; user-editable
fields are left untouched. -/
def updateStructural (r : PhotoRecord) (item : ScanItem) (cm : CaptureMetadata) :
    PhotoRecord :=
  { r with
    relative_path := item.relative_path
    filename := filenameOf item.relative_path
    album := item.album
    signature := item.signature
    capture_metadata := cm }

/-- Outcome of processing one scanned file during `sync()`. -/
inductive SyncOutcome where
  | unchanged (r : PhotoRecord)
  | changedRec (r : PhotoRecord)
  | addedRec (r : PhotoRecord)
  | skipped (warning : String)
  | keptCorrupt (r : PhotoRecord) (warning : String)
deriving Repr, DecidableEq

/-- The record (if any) a sync outcome contributes to the new store. -/
def SyncOutcome.record? : SyncOutcome → Option PhotoRecord
  | SyncOutcome.unchanged r => some r
  | SyncOutcome.changedRec r => some r
  | SyncOutcome.addedRec r => some r
  | SyncOutcome.skipped _ => none
  | SyncOutcome.keptCorrupt r _ => some r

/-- The warning (if any) a sync outcome contributes. -/
def SyncOutcome.warning? : SyncOutcome → Option String
  | SyncOutcome.skipped w => some w
  | SyncOutcome.keptCorrupt _ w => some w
  | _ => none

/-- Whether the outcome inserted a new record. -/
def SyncOutcome.isAdded : SyncOutcome → Bool
  | SyncOutcome.addedRec _ => true
  | _ => false

/-- Whether the outcome structurally updated a changed record. -/
def SyncOutcome.isChanged : SyncOutcome → Bool
  | SyncOutcome.changedRec _ => true
  | _ => false

/-- Modelled from the spec: per-file step of SyncReconciler.sync() (backend
absent from the source tree).  A scanned id not in the store is added (or
skipped with a warning when corrupt); an id whose stored signature matches
the scanned one is untouched; a signature mismatch re-extracts capture
metadata and updates only structural fields (corrupt re-extraction keeps the
old record and warns). -/
def processItem (D : List PhotoRecord) (item : ScanItem) : SyncOutcome :=
  match lookupRec D (scanId item) with
  | some r =>
      if r.signature = item.signature then SyncOutcome.unchanged r
      else
        match extract_metadata item.image with
        | Except.error _ =>
            SyncOutcome.keptCorrupt r ("corrupt file: " ++ item.relative_path)
        | Except.ok cm => SyncOutcome.changedRec (updateStructural r item cm)
  | none =>
      match extract_metadata item.image with
      | Except.error _ => SyncOutcome.skipped ("corrupt file: " ++ item.relative_path)
      | Except.ok cm => SyncOutcome.addedRec (mkRecord item cm)

/-- The metadata store produced by a sync pass: every scanned file's
resulting record, records of vanished files being dropped. -/
def syncStore (S : List ScanItem) (D : List PhotoRecord) : List PhotoRecord :=
  (S.map (processItem D)).filterMap SyncOutcome.record?

/-- Modelled from the spec: SyncReconciler.sync() (backend absent from the
source tree).  `Added = keys(S) − keys(D)` inserts fresh records,
`Removed = keys(D) − keys(S)` deletes them, `Changed` re-extracts and updates
structural fields only; corrupt files are skipped with a per-item warning.
Returns the aggregate counts and warnings together with the new store. -/
def sync (S : List ScanItem) (D : List PhotoRecord) :
    SyncResult × List PhotoRecord :=
  let outcomes := S.map (processItem D)
  (⟨(outcomes.filter SyncOutcome.isAdded).length,
    (D.filter (fun r => decide (r.id ∉ S.map scanId))).length,
    (outcomes.filter SyncOutcome.isChanged).length,
    outcomes.filterMap SyncOutcome.warning?⟩,
   syncStore S D)

/-! ### PublishReconciler (deploy) -/

/-- Modelled from the spec: the remote key of a photo's original object is a
pure, deterministic function of its identity. -/
def original_key (id : String) : String := "photos/" ++ id

/-- Modelled from the spec: the remote key of a photo's thumbnail object is
a pure, deterministic function of its identity. -/
def thumbnail_key (id : String) : String := "thumbnails/" ++ id

/-- `Desired`: for every published record, its original and thumbnail keys. -/
def desiredKeys (store : List PhotoRecord) : List String :=
  (store.filter (fun r => r.published)).flatMap
    (fun r => [original_key r.id, thumbnail_key r.id])

/-- `ToDelete = Actual − Desired`: remote keys with no published record. -/
def toDeleteKeys (store : List PhotoRecord) (actual : List String) :
    List String :=
  actual.filter (fun k => decide (k ∉ desiredKeys store))

/-- The published records missing at least one of their two objects from the
remote listing — the photos needing upload (`ToUpload` grouped by photo). -/
def toUploadPhotos (store : List PhotoRecord) (actual : List String) :
    List PhotoRecord :=
  (store.filter (fun r => r.published)).filter
    (fun r =>
      decide (¬ (original_key r.id ∈ actual ∧ thumbnail_key r.id ∈ actual)))

/-- The keys of a photo that are absent from the remote listing. -/
def missingKeys (actual : List String) (r : PhotoRecord) : List String :=
  (if original_key r.id ∈ actual then [] else [original_key r.id]) ++
    (if thumbnail_key r.id ∈ actual then [] else [thumbnail_key r.id])

/-- Whether the remote store rejects any of this photo's uploads. -/
def uploadRejected (rejects : String → Bool) (r : PhotoRecord) : Bool :=
  rejects (original_key r.id) || rejects (thumbnail_key r.id)

/-- Aggregate result of a `deploy()` call. -/
structure DeployResult where
  success : Bool
  thumbnails_generated : Nat
  uploaded : Nat
  deleted : Nat
  uploaded_files : List String
  deleted_files : List String
  warnings : List String
  errors : List String
deriving Repr, DecidableEq

/-- Modelled from the spec: PublishReconciler.deploy() (backend absent from
the source tree).  Diffs the published subset of the store against the live
remote listing: uploads each photo's missing objects (generating its
thumbnail on demand, cached by `(id, signature)`), deletes orphaned remote
keys, attempts every item independently, records per-item failures in
`errors` without aborting, and reports `success = false` only for a
setup-level failure (`setupOk = false`: store or bucket unreachable), never
for per-item errors.  `rejects` says which keys the remote store refuses.
Returns the result together with the new remote listing and thumbnail
cache. -/
def deploy (setupOk : Bool) (rejects : String → Bool)
    (store : List PhotoRecord) (remote : List String)
    (cache : List (String × Nat)) :
    DeployResult × List String × List (String × Nat) :=
  if setupOk then
    let actual := remote
    let toDelete := toDeleteKeys store actual
    let uploads := toUploadPhotos store actual
    let failedUploads := uploads.filter (fun r => uploadRejected rejects r)
    let okUploads := uploads.filter (fun r => ! uploadRejected rejects r)
    let uploadedKeys := okUploads.flatMap (fun r => missingKeys actual r)
    let newThumbs :=
      okUploads.filter (fun r => decide ((r.id, r.signature) ∉ cache))
    let okDeletes := toDelete.filter (fun k => ! rejects k)
    let failedDeletes := toDelete.filter (fun k => rejects k)
    let remoteAfter :=
      (remote ++ uploadedKeys).filter (fun k => decide (k ∉ okDeletes))
    let cacheAfter := cache ++ newThumbs.map (fun r => (r.id, r.signature))
    (⟨true, newThumbs.length, uploadedKeys.length, okDeletes.length,
      uploadedKeys, okDeletes, [],
      failedUploads.map (fun r => "upload failed: " ++ r.id) ++
        failedDeletes.map (fun k => "delete failed: " ++ k)⟩,
     remoteAfter, cacheAfter)
  else
    (⟨false, 0, 0, 0, [], [], [],
      ["setup failure: cannot reach metadata store or remote bucket"]⟩,
     remote, cache)

/-! ### Concurrency guard -/

/-- `sync()`/`deploy()` invoked while one of the same kind is running. -/
inductive ConcurrencyConflict where
  | conflict
deriving Repr, DecidableEq

/-- The whole engine state: the two in-progress guards, the metadata store,
the remote listing and the thumbnail cache. -/
structure EngineState where
  syncRunning : Bool
  deployRunning : Bool
  store : List PhotoRecord
  remote : List String
  thumbCache : List (String × Nat)
deriving Repr, DecidableEq

/-- Modelled from the spec: the process-wide in-progress guard around
`sync()`.  A call while a sync is already running fails immediately with a
`ConcurrencyConflict` and mutates no state. -/
def sync_guarded (st : EngineState) (S : List ScanItem) :
    Except ConcurrencyConflict SyncResult × EngineState :=
  if st.syncRunning then (Except.error ConcurrencyConflict.conflict, st)
  else
    let p := sync S st.store
    (Except.ok p.1, { st with store := p.2 })

/-- Modelled from the spec: the process-wide in-progress guard around
`deploy()`.  A call while a deploy is already running fails immediately with
a `ConcurrencyConflict` and mutates no state. -/
def deploy_guarded (st : EngineState) (rejects : String → Bool) :
    Except ConcurrencyConflict DeployResult × EngineState :=
  if st.deployRunning then (Except.error ConcurrencyConflict.conflict, st)
  else
    let p := deploy true rejects st.store st.remote st.thumbCache
    (Except.ok p.1, { st with remote := p.2.1, thumbCache := p.2.2 })

/-! ### Frontend: lightbox navigation and selection toggling
(embedded from `Home.jsx` / `AlbumDetail.jsx`) -/

/-- `handleNext` from `Home.jsx`/`AlbumDetail.jsx`:
`(selectedIndex + 1) % photos.length`.  On the reachable inputs
(`0 ≤ selectedIndex < photos.length`) the dividend is nonnegative, where the
JavaScript remainder agrees with `Int.emod`. -/
def handleNextIndex (selectedIndex : Int) (numPhotos : Int) : Int :=
  (selectedIndex + 1) % numPhotos

/-- `handlePrev` from `Home.jsx`/`AlbumDetail.jsx`:
`(selectedIndex - 1 + photos.length) % photos.length`. -/
def handlePrevIndex (selectedIndex : Int) (numPhotos : Int) : Int :=
  (selectedIndex - 1 + numPhotos) % numPhotos

/-- `handleToggleSelect` from `Home.jsx`/`AlbumDetail.jsx`:
`prev.includes(photoId) ? prev.filter(id => id !== photoId)
: [...prev, photoId]`. -/
def handleToggleSelect (prev : List String) (photoId : String) :
    List String :=
  if photoId ∈ prev then prev.filter (fun id => id ≠ photoId)
  else prev ++ [photoId]

/-- The outcome a second sync run produces for a file the first run settled:
a freshly added or structurally updated record is simply found unchanged. -/
def SyncOutcome.stabilize : SyncOutcome → SyncOutcome
  | SyncOutcome.changedRec r => SyncOutcome.unchanged r
  | SyncOutcome.addedRec r => SyncOutcome.unchanged r
  | o => o

/-! ### Theorems -/

/-- C8: for every image accepted by MetadataExtractor, each capture-metadata
field that cannot be determined from the embedded tags is set to the
explicit sentinel "Unknown" (and a present tag is passed through), and
extraction fails only on a structurally corrupt file, with
`CorruptMediaError`. -/
theorem extract_metadata_unknown_sentinel (t : ExifTags) (cm : CaptureMetadata)
    (h : extract_metadata (Image.valid t) = Except.ok cm) :
    ((t.camera = none → cm.camera = "Unknown") ∧
      (∀ s, t.camera = some s → cm.camera = s)) ∧
    ((t.lens = none → cm.lens = "Unknown") ∧
      (∀ s, t.lens = some s → cm.lens = s)) ∧
    ((t.iso = none → cm.iso = "Unknown") ∧
      (∀ s, t.iso = some s → cm.iso = s)) ∧
    ((t.aperture = none → cm.aperture = "Unknown") ∧
      (∀ s, t.aperture = some s → cm.aperture = s)) ∧
    ((t.shutter_speed = none → cm.shutter_speed = "Unknown") ∧
      (∀ s, t.shutter_speed = some s → cm.shutter_speed = s)) ∧
    ((t.date_taken = none → cm.date_taken = "Unknown") ∧
      (∀ s, t.date_taken = some s → cm.date_taken = s)) ∧
    (∀ (img : Image) (e : MediaError),
      extract_metadata img = Except.error e →
        img = Image.corrupt ∧ e = MediaError.corruptMediaError) := by
  have hcm : cm = { camera := t.camera.getD "Unknown"
                    lens := t.lens.getD "Unknown"
                    iso := t.iso.getD "Unknown"
                    aperture := t.aperture.getD "Unknown"
                    shutter_speed := t.shutter_speed.getD "Unknown"
                    date_taken := t.date_taken.getD "Unknown" } := by
    have := h
    simp [extract_metadata] at this
    exact this.symm
  subst hcm
  refine ⟨⟨fun hc => by simp [hc], fun s hs => by simp [hs]⟩,
          ⟨fun hc => by simp [hc], fun s hs => by simp [hs]⟩,
          ⟨fun hc => by simp [hc], fun s hs => by simp [hs]⟩,
          ⟨fun hc => by simp [hc], fun s hs => by simp [hs]⟩,
          ⟨fun hc => by simp [hc], fun s hs => by simp [hs]⟩,
          ⟨fun hc => by simp [hc], fun s hs => by simp [hs]⟩, ?_⟩
  intro img e herr
  cases img with
  | corrupt =>
      refine ⟨rfl, ?_⟩
      cases e
      rfl
  | valid t' => simp [extract_metadata] at herr

/-- Witness for C8 at a concrete image: the lens tag is present and passed
through, the camera tag is absent and becomes "Unknown". -/
theorem extract_metadata_unknown_sentinel_witness :
    (⟨"Unknown", "50mm", "Unknown", "Unknown", "Unknown", "Unknown"⟩ :
        CaptureMetadata).camera = "Unknown" ∧
    (⟨"Unknown", "50mm", "Unknown", "Unknown", "Unknown", "Unknown"⟩ :
        CaptureMetadata).lens = "50mm" := by
  have h := extract_metadata_unknown_sentinel
    ⟨none, some "50mm", none, none, none, none⟩
    ⟨"Unknown", "50mm", "Unknown", "Unknown", "Unknown", "Unknown"⟩ rfl
  exact ⟨h.1.1 rfl, h.2.1.2 "50mm" rfl⟩

/-- C9: for a nonempty photo list and an in-range selected index, the
lightbox navigation handlers compute `(i + 1) % n` and `(i - 1 + n) % n`,
stay in `[0, n)`, invert each other, and wrap around at both ends. -/
theorem lightbox_nav_wraps (i n : Int) (h1 : 0 ≤ i) (h2 : i < n) :
    handleNextIndex i n = (i + 1) % n ∧
    handlePrevIndex i n = (i - 1 + n) % n ∧
    (0 ≤ handleNextIndex i n ∧ handleNextIndex i n < n) ∧
    (0 ≤ handlePrevIndex i n ∧ handlePrevIndex i n < n) ∧
    handlePrevIndex (handleNextIndex i n) n = i ∧
    handleNextIndex (handlePrevIndex i n) n = i ∧
    handleNextIndex (n - 1) n = 0 ∧
    handlePrevIndex 0 n = n - 1 := by
  have hn : 0 < n := lt_of_le_of_lt h1 h2
  have haddn : ∀ m : Int, (m + n) % n = m % n := by
    intro m
    have hm := Int.add_mul_emod_self_left m n 1
    rw [mul_one] at hm
    exact hm
  refine ⟨rfl, rfl, ⟨Int.emod_nonneg _ (by omega), Int.emod_lt_of_pos _ hn⟩,
      ⟨Int.emod_nonneg _ (by omega), Int.emod_lt_of_pos _ hn⟩, ?_, ?_, ?_, ?_⟩
  · unfold handleNextIndex handlePrevIndex
    rw [show (i + 1) % n - 1 + n = (i + 1) % n + (n - 1) by ring,
      Int.emod_add_emod, show i + 1 + (n - 1) = i + n by ring, haddn,
      Int.emod_eq_of_lt h1 h2]
  · unfold handleNextIndex handlePrevIndex
    rw [Int.emod_add_emod, show i - 1 + n + 1 = i + n by ring, haddn,
      Int.emod_eq_of_lt h1 h2]
  · unfold handleNextIndex
    rw [show n - 1 + 1 = n by ring, Int.emod_self]
  · unfold handlePrevIndex
    rw [show (0 : Int) - 1 + n = n - 1 by ring,
      Int.emod_eq_of_lt (by omega) (by omega)]

/-- Witness for C9 with three photos and the middle index selected. -/
theorem lightbox_nav_wraps_witness :
    handlePrevIndex (handleNextIndex 1 3) 3 = 1 ∧
    handleNextIndex 2 3 = 0 ∧ handlePrevIndex 0 3 = 3 - 1 := by
  have h := lightbox_nav_wraps 1 3 (by decide) (by decide)
  exact ⟨h.2.2.2.2.1, h.2.2.2.2.2.2.1, h.2.2.2.2.2.2.2⟩

/-- Counterexample to C10 as stated: toggling the same id twice does not in
general return the original selection list — the removed id is re-appended
at the end, reordering the list. -/
theorem toggle_select_not_involutive :
    handleToggleSelect (handleToggleSelect ["b", "a"] "b") "b" ≠ ["b", "a"] := by
  decide

/-- C10 (amended): on a duplicate-free selection, `handleToggleSelect`
removes the id if present and appends it if absent, the result is again
duplicate-free, and toggling the same id twice returns a permutation of the
original selection (the same set of ids; the toggled id may move to the
end), rather than the identical list. -/
theorem toggle_select_set_involution (prev : List String) (x : String)
    (hnd : prev.Nodup) :
    (x ∈ prev → handleToggleSelect prev x = prev.filter (fun id => id ≠ x)) ∧
    (x ∉ prev → handleToggleSelect prev x = prev ++ [x]) ∧
    (handleToggleSelect prev x).Nodup ∧
    (handleToggleSelect (handleToggleSelect prev x) x).Perm prev := by
  by_cases hx : x ∈ prev
  · have hfilter : prev.filter (fun id => decide (id ≠ x)) = prev.erase x := by
      rw [List.Nodup.erase_eq_filter hnd]
      apply List.filter_congr
      intro a _
      by_cases hax : a = x <;> simp [hax]
    have ht1 : handleToggleSelect prev x = prev.filter (fun id => id ≠ x) := by
      simp [handleToggleSelect, hx]
    have hxnot : x ∉ prev.filter (fun id => decide (id ≠ x)) := by simp
    refine ⟨fun _ => ht1, fun hc => absurd hx hc, ?_, ?_⟩
    · rw [ht1]
      exact List.Nodup.filter _ hnd
    · rw [ht1]
      have ht2 : handleToggleSelect (prev.filter (fun id => decide (id ≠ x))) x
          = prev.filter (fun id => decide (id ≠ x)) ++ [x] := by
        simp [handleToggleSelect, hxnot]
      rw [ht2, hfilter]
      exact (List.perm_append_singleton x (prev.erase x)).trans
        (List.perm_cons_erase hx).symm
  · have ht1 : handleToggleSelect prev x = prev ++ [x] := by
      simp [handleToggleSelect, hx]
    refine ⟨fun hc => absurd hc hx, fun _ => ht1, ?_, ?_⟩
    · rw [ht1]
      simp [List.nodup_append, hnd, hx]
    · rw [ht1]
      have hmem : x ∈ prev ++ [x] := by simp
      have ht2 : handleToggleSelect (prev ++ [x]) x
          = (prev ++ [x]).filter (fun id => decide (id ≠ x)) := by
        simp [handleToggleSelect, hmem]
      rw [ht2, List.filter_append]
      have h1 : prev.filter (fun id => decide (id ≠ x)) = prev := by
        rw [List.filter_eq_self]
        intro a ha
        simp
        exact fun hax => hx (hax ▸ ha)
      have h2 : ([x] : List String).filter (fun id => decide (id ≠ x)) = [] := by
        simp
      rw [h1, h2]
      simp

/-- Witness for the amended C10 on the concrete selection `["b", "a"]`. -/
theorem toggle_select_set_involution_witness :
    ("b" ∈ (["b", "a"] : List String) →
        handleToggleSelect ["b", "a"] "b"
          = (["b", "a"] : List String).filter (fun id => id ≠ "b")) ∧
    ("b" ∉ (["b", "a"] : List String) →
        handleToggleSelect ["b", "a"] "b" = ["b", "a"] ++ ["b"]) ∧
    (handleToggleSelect ["b", "a"] "b").Nodup ∧
    (handleToggleSelect (handleToggleSelect ["b", "a"] "b") "b").Perm
      ["b", "a"] :=
  toggle_select_set_involution ["b", "a"] "b" (by decide)

/-- C5: every `deploy()` call returns a result with the eight documented
fields, and `success` reflects only whether the run could start (reachable
store and bucket); per-item rejections populate `errors` but never flip
`success` to false. -/
theorem deploy_result_success_contract (setupOk : Bool)
    (rejects : String → Bool) (store : List PhotoRecord)
    (remote : List String) (cache : List (String × Nat)) :
    (deploy setupOk rejects store remote cache).1.success = setupOk ∧
    (deploy setupOk rejects store remote cache).1 =
      ⟨(deploy setupOk rejects store remote cache).1.success,
       (deploy setupOk rejects store remote cache).1.thumbnails_generated,
       (deploy setupOk rejects store remote cache).1.uploaded,
       (deploy setupOk rejects store remote cache).1.deleted,
       (deploy setupOk rejects store remote cache).1.uploaded_files,
       (deploy setupOk rejects store remote cache).1.deleted_files,
       (deploy setupOk rejects store remote cache).1.warnings,
       (deploy setupOk rejects store remote cache).1.errors⟩ := by
  constructor
  · by_cases h : setupOk <;> simp [deploy, h]
  · rfl

/-- C6: invoking `sync()` or `deploy()` while one of the same kind is
running fails immediately with `ConcurrencyConflict` and leaves the whole
engine state — metadata store, remote listing, thumbnail cache — exactly as
it was. -/
theorem concurrency_guard_blocks (st : EngineState) (S : List ScanItem)
    (rejects : String → Bool) :
    (st.syncRunning = true →
        sync_guarded st S = (Except.error ConcurrencyConflict.conflict, st)) ∧
    (st.deployRunning = true →
        deploy_guarded st rejects
          = (Except.error ConcurrencyConflict.conflict, st)) := by
  constructor
  · intro h
    simp [sync_guarded, h]
  · intro h
    simp [deploy_guarded, h]

/-- Witness for C6: a concrete engine state with both guards held. -/
theorem concurrency_guard_blocks_witness :
    sync_guarded ⟨true, true, [], [], []⟩ []
        = (Except.error ConcurrencyConflict.conflict,
           (⟨true, true, [], [], []⟩ : EngineState)) ∧
    deploy_guarded ⟨true, true, [], [], []⟩ (fun _ => false)
        = (Except.error ConcurrencyConflict.conflict,
           (⟨true, true, [], [], []⟩ : EngineState)) := by
  have h := concurrency_guard_blocks ⟨true, true, [], [], []⟩ []
    (fun _ => false)
  exact ⟨h.1 rfl, h.2 rfl⟩

/-! ### Sync helper lemmas -/

/-- A successful lookup returns a record carrying the looked-up id. -/
theorem lookupRec_id (D : List PhotoRecord) (k : String) (r : PhotoRecord)
    (h : lookupRec D k = some r) : r.id = k := by
  unfold lookupRec at h
  have hp := List.find?_some h
  exact of_decide_eq_true hp

/-- Metadata extraction fails only on a corrupt image. -/
theorem extract_metadata_error_corrupt (img : Image) (e : MediaError)
    (h : extract_metadata img = Except.error e) : img = Image.corrupt := by
  cases img with
  | corrupt => rfl
  | valid t => simp [extract_metadata] at h

/-- Every record a sync outcome contributes carries the scanned file's id. -/
theorem processItem_record_id (D : List PhotoRecord) (item : ScanItem)
    (r : PhotoRecord) (h : (processItem D item).record? = some r) :
    r.id = scanId item := by
  unfold processItem at h
  cases hf : lookupRec D (scanId item) <;> rw [hf] at h
  · cases he : extract_metadata item.image <;> rw [he] at h <;>
      simp [SyncOutcome.record?] at h
    rw [← h]
    rfl
  · rename_i r0
    have hr0 : r0.id = scanId item := lookupRec_id D (scanId item) r0 hf
    by_cases hs : r0.signature = item.signature
    · simp [hs, SyncOutcome.record?] at h
      rw [← h]
      exact hr0
    · cases he : extract_metadata item.image <;> rw [he] at h <;>
        simp [hs, SyncOutcome.record?] at h <;> rw [← h]
      · exact hr0
      · exact hr0

/-- An `unchanged` outcome means the stored signature already matches. -/
theorem processItem_unchanged_sig (D : List PhotoRecord) (item : ScanItem)
    (r : PhotoRecord) (h : processItem D item = SyncOutcome.unchanged r) :
    r.signature = item.signature := by
  unfold processItem at h
  cases hf : lookupRec D (scanId item) <;> rw [hf] at h
  · cases he : extract_metadata item.image <;> rw [he] at h <;> simp at h
  · rename_i r0
    by_cases hs : r0.signature = item.signature
    · simp [hs] at h
      rw [← h]
      exact hs
    · cases he : extract_metadata item.image <;> rw [he] at h <;>
        simp [hs] at h

/-- A `changedRec` outcome carries the freshly scanned signature. -/
theorem processItem_changed_sig (D : List PhotoRecord) (item : ScanItem)
    (r : PhotoRecord) (h : processItem D item = SyncOutcome.changedRec r) :
    r.signature = item.signature := by
  unfold processItem at h
  cases hf : lookupRec D (scanId item) <;> rw [hf] at h
  · cases he : extract_metadata item.image <;> rw [he] at h <;> simp at h
  · rename_i r0
    by_cases hs : r0.signature = item.signature
    · simp [hs] at h
    · cases he : extract_metadata item.image <;> rw [he] at h <;>
        simp [hs] at h
      rw [← h]
      rfl

/-- An `addedRec` outcome carries the freshly scanned signature. -/
theorem processItem_added_sig (D : List PhotoRecord) (item : ScanItem)
    (r : PhotoRecord) (h : processItem D item = SyncOutcome.addedRec r) :
    r.signature = item.signature := by
  unfold processItem at h
  cases hf : lookupRec D (scanId item) <;> rw [hf] at h
  · cases he : extract_metadata item.image <;> rw [he] at h <;> simp at h
    rw [← h]
    rfl
  · rename_i r0
    by_cases hs : r0.signature = item.signature
    · simp [hs] at h
    · cases he : extract_metadata item.image <;> rw [he] at h <;>
        simp [hs] at h

/-- A `keptCorrupt` outcome: mismatched signature, corrupt image, and the
standard warning text. -/
theorem processItem_kept_spec (D : List PhotoRecord) (item : ScanItem)
    (r : PhotoRecord) (w : String)
    (h : processItem D item = SyncOutcome.keptCorrupt r w) :
    r.signature ≠ item.signature ∧ item.image = Image.corrupt ∧
      w = "corrupt file: " ++ item.relative_path := by
  unfold processItem at h
  cases hf : lookupRec D (scanId item) <;> rw [hf] at h
  · cases he : extract_metadata item.image <;> rw [he] at h <;> simp at h
  · rename_i r0
    by_cases hs : r0.signature = item.signature
    · simp [hs] at h
    · cases he : extract_metadata item.image <;> rw [he] at h <;>
        simp [hs] at h
      obtain ⟨hr, hw⟩ := h
      rename_i e
      exact ⟨hr ▸ hs, extract_metadata_error_corrupt item.image e he, hw.symm⟩

/-- A `skipped` outcome: corrupt image and the standard warning text. -/
theorem processItem_skipped_spec (D : List PhotoRecord) (item : ScanItem)
    (w : String) (h : processItem D item = SyncOutcome.skipped w) :
    item.image = Image.corrupt ∧
      w = "corrupt file: " ++ item.relative_path := by
  unfold processItem at h
  cases hf : lookupRec D (scanId item) <;> rw [hf] at h
  · cases he : extract_metadata item.image <;> rw [he] at h <;> simp at h
    rename_i e
    exact ⟨extract_metadata_error_corrupt item.image e he, h.symm⟩
  · rename_i r0
    by_cases hs : r0.signature = item.signature
    · simp [hs] at h
    · cases he : extract_metadata item.image <;> rw [he] at h <;>
        simp [hs] at h

/-- Every record of the post-sync store comes from some scanned file. -/
theorem mem_syncStore (S : List ScanItem) (D : List PhotoRecord)
    (r : PhotoRecord) (h : r ∈ syncStore S D) :
    ∃ item, item ∈ S ∧ (processItem D item).record? = some r := by
  unfold syncStore at h
  rw [List.mem_filterMap] at h
  obtain ⟨o, ho, hro⟩ := h
  rw [List.mem_map] at ho
  obtain ⟨item, hitem, rfl⟩ := ho
  exact ⟨item, hitem, hro⟩

/-- With duplicate-free scanned ids, looking a scanned file's id up in the
post-sync store finds exactly the record its own processing produced. -/
theorem lookupRec_syncStore (S : List ScanItem) (D : List PhotoRecord)
    (hnd : (S.map scanId).Nodup) (item : ScanItem) (hmem : item ∈ S) :
    lookupRec (syncStore S D) (scanId item) = (processItem D item).record? := by
  induction S with
  | nil => cases hmem
  | cons a S ih =>
      rw [List.map_cons, List.nodup_cons] at hnd
      obtain ⟨hna, hndS⟩ := hnd
      have hstore : syncStore (a :: S) D
          = match (processItem D a).record? with
            | some r => r :: syncStore S D
            | none => syncStore S D := by
        unfold syncStore
        rw [List.map_cons, List.filterMap_cons]
        cases (processItem D a).record? <;> rfl
      rcases List.mem_cons.mp hmem with heq | hmemS
      · subst heq
        cases hro : (processItem D item).record? with
        | some r =>
            have hid : r.id = scanId item :=
              processItem_record_id D item r hro
            rw [hstore, hro]
            unfold lookupRec
            rw [List.find?_cons_of_pos]
            simp [hid]
        | none =>
            rw [hstore, hro]
            unfold lookupRec
            rw [List.find?_eq_none]
            intro x hx
            obtain ⟨it, hit, hrx⟩ := mem_syncStore S D x hx
            have hxid : x.id = scanId it := processItem_record_id D it x hrx
            have hne : scanId it ≠ scanId item := by
              intro he
              exact hna (he ▸ List.mem_map_of_mem scanId hit)
            simp [hxid]
            exact hne
      · have hne : scanId item ≠ scanId a := by
          intro he
          exact hna (he ▸ List.mem_map_of_mem scanId hmemS)
        cases hro : (processItem D a).record? with
        | some r =>
            have hid : r.id = scanId a := processItem_record_id D a r hro
            rw [hstore, hro]
            unfold lookupRec
            rw [List.find?_cons_of_neg]
            · exact ih hndS hmemS
            · simp [hid]
              exact fun he => hne he.symm
        | none =>
            rw [hstore, hro]
            exact ih hndS hmemS

/-- Re-processing a file against the store the first sync produced yields
the stabilized outcome: what was added or updated is now found unchanged,
and what was skipped is skipped again. -/
theorem processItem_syncStore (S : List ScanItem) (D : List PhotoRecord)
    (hnd : (S.map scanId).Nodup) (item : ScanItem) (hmem : item ∈ S) :
    processItem (syncStore S D) item = (processItem D item).stabilize := by
  have hl := lookupRec_syncStore S D hnd item hmem
  cases hpi : processItem D item with
  | unchanged r =>
      have hsig : r.signature = item.signature :=
        processItem_unchanged_sig D item r hpi
      rw [hpi] at hl
      unfold processItem
      rw [hl]
      simp [SyncOutcome.record?, SyncOutcome.stabilize, hsig]
  | changedRec r =>
      have hsig : r.signature = item.signature :=
        processItem_changed_sig D item r hpi
      rw [hpi] at hl
      unfold processItem
      rw [hl]
      simp [SyncOutcome.record?, SyncOutcome.stabilize, hsig]
  | addedRec r =>
      have hsig : r.signature = item.signature :=
        processItem_added_sig D item r hpi
      rw [hpi] at hl
      unfold processItem
      rw [hl]
      simp [SyncOutcome.record?, SyncOutcome.stabilize, hsig]
  | skipped w =>
      obtain ⟨hcor, hw⟩ := processItem_skipped_spec D item w hpi
      rw [hpi] at hl
      unfold processItem
      rw [hl]
      simp [SyncOutcome.record?, SyncOutcome.stabilize, hcor,
        extract_metadata, hw]
  | keptCorrupt r w =>
      obtain ⟨hsig, hcor, hw⟩ := processItem_kept_spec D item r w hpi
      rw [hpi] at hl
      unfold processItem
      rw [hl]
      simp [SyncOutcome.record?, SyncOutcome.stabilize, hsig, hcor,
        extract_metadata, hw]

/-- Stabilizing never changes the contributed record. -/
theorem SyncOutcome.record_stabilize (o : SyncOutcome) :
    o.stabilize.record? = o.record? := by
  cases o <;> rfl

/-- A stabilized outcome never counts as an addition. -/
theorem SyncOutcome.isAdded_stabilize (o : SyncOutcome) :
    o.stabilize.isAdded = false := by
  cases o <;> rfl

/-- A stabilized outcome never counts as a change. -/
theorem SyncOutcome.isChanged_stabilize (o : SyncOutcome) :
    o.stabilize.isChanged = false := by
  cases o <;> rfl

/-- Dropping the stabilization pass leaves the contributed records as they
were. -/
theorem filterMap_record_stabilize (os : List SyncOutcome) :
    (os.map SyncOutcome.stabilize).filterMap SyncOutcome.record?
      = os.filterMap SyncOutcome.record? := by
  induction os with
  | nil => rfl
  | cons o os ih =>
      rw [List.map_cons, List.filterMap_cons, List.filterMap_cons,
        SyncOutcome.record_stabilize]
      cases o.record? <;> rw [ih]

/-- C1: with no filesystem change between the calls, a second `sync()` is a
no-op — the metadata store after the second call equals the store after the
first, and the second call reports `added = removed = changed = 0`. -/
theorem sync_idempotent (S : List ScanItem) (D : List PhotoRecord)
    (hnd : (S.map scanId).Nodup) :
    (sync S (sync S D).2).1.added = 0 ∧
    (sync S (sync S D).2).1.removed = 0 ∧
    (sync S (sync S D).2).1.changed = 0 ∧
    (sync S (sync S D).2).2 = (sync S D).2 := by
  have h2 : (sync S D).2 = syncStore S D := rfl
  have hpt : ∀ item ∈ S,
      processItem (syncStore S D) item = (processItem D item).stabilize :=
    fun item hmem => processItem_syncStore S D hnd item hmem
  refine ⟨?_, ?_, ?_, ?_⟩
  · show ((S.map (processItem (sync S D).2)).filter SyncOutcome.isAdded).length = 0
    rw [h2]
    have : (S.map (processItem (syncStore S D))).filter SyncOutcome.isAdded
        = [] := by
      rw [List.filter_eq_nil_iff]
      intro o ho
      rw [List.mem_map] at ho
      obtain ⟨item, hitem, rfl⟩ := ho
      rw [hpt item hitem, SyncOutcome.isAdded_stabilize]
      simp
    rw [this]
    rfl
  · show (((sync S D).2).filter
        (fun r => decide (r.id ∉ S.map scanId))).length = 0
    rw [h2]
    have : (syncStore S D).filter
        (fun r => decide (r.id ∉ S.map scanId)) = [] := by
      rw [List.filter_eq_nil_iff]
      intro r hr
      obtain ⟨item, hitem, hro⟩ := mem_syncStore S D r hr
      have hid : r.id = scanId item := processItem_record_id D item r hro
      simp [hid]
      exact ⟨item, hitem, rfl⟩
    rw [this]
    rfl
  · show ((S.map (processItem (sync S D).2)).filter
        SyncOutcome.isChanged).length = 0
    rw [h2]
    have : (S.map (processItem (syncStore S D))).filter SyncOutcome.isChanged
        = [] := by
      rw [List.filter_eq_nil_iff]
      intro o ho
      rw [List.mem_map] at ho
      obtain ⟨item, hitem, rfl⟩ := ho
      rw [hpt item hitem, SyncOutcome.isChanged_stabilize]
      simp
    rw [this]
    rfl
  · show syncStore S (sync S D).2 = (sync S D).2
    rw [h2]
    have hmap : S.map (processItem (syncStore S D))
        = (S.map (processItem D)).map SyncOutcome.stabilize := by
      rw [List.map_map]
      exact List.map_congr_left hpt
    calc syncStore S (syncStore S D)
        = ((S.map (processItem D)).map SyncOutcome.stabilize).filterMap
            SyncOutcome.record? := by
          show (S.map (processItem (syncStore S D))).filterMap
              SyncOutcome.record? = _
          rw [hmap]
      _ = (S.map (processItem D)).filterMap SyncOutcome.record? :=
          filterMap_record_stabilize (S.map (processItem D))
      _ = syncStore S D := rfl

/-- Witness for C1: one valid photo synced into an empty store, twice. -/
theorem sync_idempotent_witness :
    (sync [⟨"a.jpg", none, 1, Image.valid ⟨none, none, none, none, none, none⟩⟩]
        (sync [⟨"a.jpg", none, 1,
            Image.valid ⟨none, none, none, none, none, none⟩⟩] []).2).1.added = 0 ∧
    (sync [⟨"a.jpg", none, 1, Image.valid ⟨none, none, none, none, none, none⟩⟩]
        (sync [⟨"a.jpg", none, 1,
            Image.valid ⟨none, none, none, none, none, none⟩⟩] []).2).1.removed = 0 ∧
    (sync [⟨"a.jpg", none, 1, Image.valid ⟨none, none, none, none, none, none⟩⟩]
        (sync [⟨"a.jpg", none, 1,
            Image.valid ⟨none, none, none, none, none, none⟩⟩] []).2).1.changed = 0 ∧
    (sync [⟨"a.jpg", none, 1, Image.valid ⟨none, none, none, none, none, none⟩⟩]
        (sync [⟨"a.jpg", none, 1,
            Image.valid ⟨none, none, none, none, none, none⟩⟩] []).2).2 =
      (sync [⟨"a.jpg", none, 1,
          Image.valid ⟨none, none, none, none, none, none⟩⟩] []).2 :=
  sync_idempotent
    [⟨"a.jpg", none, 1, Image.valid ⟨none, none, none, none, none, none⟩⟩] []
    (by decide)

/-- C3: a sync run never touches the user-editable fields of an
already-known record: any record of the post-sync store whose id was
already in the store before the run carries the same `published`,
`custom_title`, `description`, `tags` and `notes` as before, even when the
run re-extracted it as `Changed`. -/
theorem sync_preserves_user_fields (S : List ScanItem) (D : List PhotoRecord)
    (r0 r : PhotoRecord) (hr : r ∈ (sync S D).2)
    (h0 : lookupRec D r.id = some r0) :
    r.published = r0.published ∧ r.custom_title = r0.custom_title ∧
    r.description = r0.description ∧ r.tags = r0.tags ∧
    r.notes = r0.notes := by
  obtain ⟨item, hitem, hro⟩ := mem_syncStore S D r hr
  have hid : r.id = scanId item := processItem_record_id D item r hro
  rw [hid] at h0
  unfold processItem at hro
  rw [h0] at hro
  by_cases hs : r0.signature = item.signature
  · simp [hs, SyncOutcome.record?] at hro
    subst hro
    exact ⟨rfl, rfl, rfl, rfl, rfl⟩
  · cases he : extract_metadata item.image <;> rw [he] at hro <;>
      simp [hs, SyncOutcome.record?] at hro <;> subst hro
    · exact ⟨rfl, rfl, rfl, rfl, rfl⟩
    · exact ⟨rfl, rfl, rfl, rfl, rfl⟩

/-- Witness for C3: a record tagged `["sunset"]` whose file signature
changed from 1 to 2 still carries `tags = ["sunset"]` after the re-sync. -/
theorem sync_preserves_user_fields_witness :
    (⟨"a.jpg", "a.jpg", "a.jpg", none, 2,
        ⟨"Unknown", "Unknown", "Unknown", "Unknown", "Unknown", "Unknown"⟩,
        false, "", "", ["sunset"], ""⟩ : PhotoRecord).tags = ["sunset"] := by
  have h := sync_preserves_user_fields
    [⟨"a.jpg", none, 2, Image.valid ⟨none, none, none, none, none, none⟩⟩]
    [⟨"a.jpg", "a.jpg", "a.jpg", none, 1,
        ⟨"Unknown", "Unknown", "Unknown", "Unknown", "Unknown", "Unknown"⟩,
        false, "", "", ["sunset"], ""⟩]
    ⟨"a.jpg", "a.jpg", "a.jpg", none, 1,
        ⟨"Unknown", "Unknown", "Unknown", "Unknown", "Unknown", "Unknown"⟩,
        false, "", "", ["sunset"], ""⟩
    ⟨"a.jpg", "a.jpg", "a.jpg", none, 2,
        ⟨"Unknown", "Unknown", "Unknown", "Unknown", "Unknown", "Unknown"⟩,
        false, "", "", ["sunset"], ""⟩
    (by decide) (by decide)
  exact h.2.2.2.1

/-- A `keptCorrupt` outcome keeps exactly the looked-up record. -/
theorem processItem_kept_lookup (D : List PhotoRecord) (item : ScanItem)
    (r : PhotoRecord) (w : String)
    (h : processItem D item = SyncOutcome.keptCorrupt r w) :
    lookupRec D (scanId item) = some r := by
  cases hf : lookupRec D (scanId item) with
  | none =>
      exfalso
      unfold processItem at h
      rw [hf] at h
      cases he : extract_metadata item.image <;> rw [he] at h <;> simp at h
  | some r0 =>
      unfold processItem at h
      rw [hf] at h
      by_cases hs : r0.signature = item.signature
      · simp [hs] at h
      · cases he : extract_metadata item.image <;> rw [he] at h <;>
          simp [hs] at h
        rw [h.1]

/-- A `skipped` outcome arises only when the id was not in the store. -/
theorem processItem_skipped_lookup (D : List PhotoRecord) (item : ScanItem)
    (w : String) (h : processItem D item = SyncOutcome.skipped w) :
    lookupRec D (scanId item) = none := by
  cases hf : lookupRec D (scanId item) with
  | none => rfl
  | some r0 =>
      exfalso
      unfold processItem at h
      rw [hf] at h
      by_cases hs : r0.signature = item.signature
      · simp [hs] at h
      · cases he : extract_metadata item.image <;> rw [he] at h <;>
          simp [hs] at h

/-- A sync warning is produced for a file exactly when the file is corrupt
and extraction was actually attempted (a new id, or a known id whose
signature changed); the warning text names the file. -/
theorem processItem_warning_iff (D : List PhotoRecord) (item : ScanItem)
    (w : String) :
    (processItem D item).warning? = some w ↔
      item.image = Image.corrupt ∧
      w = "corrupt file: " ++ item.relative_path ∧
      (match lookupRec D (scanId item) with
       | some r => r.signature ≠ item.signature
       | none => True) := by
  constructor
  · intro h
    cases hpi : processItem D item <;> rw [hpi] at h <;>
      simp [SyncOutcome.warning?] at h
    · obtain ⟨hcor, hw⟩ := processItem_skipped_spec D item _ hpi
      have hlook := processItem_skipped_lookup D item _ hpi
      rw [hlook]
      exact ⟨hcor, h ▸ hw, trivial⟩
    · obtain ⟨hsig, hcor, hw⟩ := processItem_kept_spec D item _ _ hpi
      have hlook := processItem_kept_lookup D item _ _ hpi
      rw [hlook]
      exact ⟨hcor, h ▸ hw, hsig⟩
  · rintro ⟨hcor, hw, hmatch⟩
    unfold processItem
    cases hf : lookupRec D (scanId item) with
    | none => simp [hcor, extract_metadata, SyncOutcome.warning?, hw]
    | some r =>
        rw [hf] at hmatch
        simp only [ne_eq] at hmatch
        simp [hmatch, hcor, extract_metadata, SyncOutcome.warning?, hw]

/-- C7: every `sync()` call returns the aggregate
`{added, removed, changed, warnings}`; when no scanned file is corrupt,
`changed` counts exactly the already-known ids whose stored signature
differs from the freshly scanned one, and in general `warnings` holds
exactly the per-item messages for skipped/corrupt files. -/
theorem sync_result_contract (S : List ScanItem) (D : List PhotoRecord) :
    ((∀ item ∈ S, item.image ≠ Image.corrupt) →
      (sync S D).1.changed = (S.filter (fun item =>
          match lookupRec D (scanId item) with
          | some r => decide (r.signature ≠ item.signature)
          | none => false)).length) ∧
    (∀ w, w ∈ (sync S D).1.warnings ↔
      ∃ item, item ∈ S ∧
        (item.image = Image.corrupt ∧
         w = "corrupt file: " ++ item.relative_path ∧
         (match lookupRec D (scanId item) with
          | some r => r.signature ≠ item.signature
          | none => True))) := by
  constructor
  · intro hval
    show ((S.map (processItem D)).filter SyncOutcome.isChanged).length = _
    rw [List.filter_map, List.length_map]
    congr 1
    apply List.filter_congr
    intro item hi
    have hval' := hval item hi
    show SyncOutcome.isChanged (processItem D item) = _
    unfold processItem
    cases hf : lookupRec D (scanId item) with
    | none =>
        cases hi2 : item.image with
        | corrupt => exact absurd hi2 hval'
        | valid t => simp [extract_metadata, SyncOutcome.isChanged]
    | some r =>
        by_cases hs : r.signature = item.signature
        · simp [hs, SyncOutcome.isChanged]
        · cases hi2 : item.image with
          | corrupt => exact absurd hi2 hval'
          | valid t => simp [extract_metadata, hs, SyncOutcome.isChanged]
  · intro w
    have hmem : w ∈ (sync S D).1.warnings ↔
        ∃ item, item ∈ S ∧ (processItem D item).warning? = some w := by
      show w ∈ (S.map (processItem D)).filterMap SyncOutcome.warning? ↔ _
      rw [List.mem_filterMap]
      constructor
      · rintro ⟨o, ho, hwo⟩
        rw [List.mem_map] at ho
        obtain ⟨item, hi, rfl⟩ := ho
        exact ⟨item, hi, hwo⟩
      · rintro ⟨item, hi, hwo⟩
        exact ⟨processItem D item, List.mem_map_of_mem _ hi, hwo⟩
    rw [hmem]
    constructor
    · rintro ⟨item, hi, hwo⟩
      exact ⟨item, hi, (processItem_warning_iff D item w).mp hwo⟩
    · rintro ⟨item, hi, hprops⟩
      exact ⟨item, hi, (processItem_warning_iff D item w).mpr hprops⟩

/-- Witness for C7: a valid changed photo counts as `changed = 1`; a corrupt
new file produces its per-item warning. -/
theorem sync_result_contract_witness :
    (sync [⟨"a.jpg", none, 2, Image.valid ⟨none, none, none, none, none, none⟩⟩]
        [⟨"a.jpg", "a.jpg", "a.jpg", none, 1,
            ⟨"Unknown", "Unknown", "Unknown", "Unknown", "Unknown", "Unknown"⟩,
            false, "", "", [], ""⟩]).1.changed = 1 ∧
    "corrupt file: bad.jpg" ∈
      (sync [⟨"bad.jpg", none, 5, Image.corrupt⟩] []).1.warnings := by
  constructor
  · have h := (sync_result_contract
      [⟨"a.jpg", none, 2, Image.valid ⟨none, none, none, none, none, none⟩⟩]
      [⟨"a.jpg", "a.jpg", "a.jpg", none, 1,
          ⟨"Unknown", "Unknown", "Unknown", "Unknown", "Unknown", "Unknown"⟩,
          false, "", "", [], ""⟩]).1 (by decide)
    rw [h]
    decide
  · exact ((sync_result_contract [⟨"bad.jpg", none, 5, Image.corrupt⟩] []).2
      "corrupt file: bad.jpg").mpr
      ⟨⟨"bad.jpg", none, 5, Image.corrupt⟩, by decide, rfl, rfl, trivial⟩

/-! ### Deploy helper lemmas -/

/-- Membership in the desired key set. -/
theorem mem_desiredKeys (store : List PhotoRecord) (k : String) :
    k ∈ desiredKeys store ↔
      ∃ r, r ∈ store ∧ r.published = true ∧
        (k = original_key r.id ∨ k = thumbnail_key r.id) := by
  unfold desiredKeys
  rw [List.mem_flatMap]
  constructor
  · rintro ⟨r, hr, hk⟩
    rw [List.mem_filter] at hr
    simp at hk
    exact ⟨r, hr.1, hr.2, hk⟩
  · rintro ⟨r, hr, hpub, hk⟩
    refine ⟨r, List.mem_filter.mpr ⟨hr, hpub⟩, ?_⟩
    simp
    exact hk

/-- Membership in a photo's missing-key list. -/
theorem mem_missingKeys (actual : List String) (r : PhotoRecord)
    (k : String) :
    k ∈ missingKeys actual r ↔
      ((k = original_key r.id ∧ original_key r.id ∉ actual) ∨
       (k = thumbnail_key r.id ∧ thumbnail_key r.id ∉ actual)) := by
  unfold missingKeys
  by_cases h1 : original_key r.id ∈ actual <;>
    by_cases h2 : thumbnail_key r.id ∈ actual <;> simp [h1, h2]

/-- With a fully accepting remote store, no upload is filtered out. -/
theorem filter_not_rejected_uploads (rejects : String → Bool)
    (hrej : ∀ k, rejects k = false) (l : List PhotoRecord) :
    l.filter (fun r => ! uploadRejected rejects r) = l := by
  rw [List.filter_eq_self]
  intro r _
  simp [uploadRejected, hrej]

/-- With a fully accepting remote store, no deletion is filtered out. -/
theorem filter_not_rejected_keys (rejects : String → Bool)
    (hrej : ∀ k, rejects k = false) (l : List String) :
    l.filter (fun k => ! rejects k) = l := by
  rw [List.filter_eq_self]
  intro k _
  simp [hrej]

/-- With no rejected operation, the remote listing after a deploy is the old
listing plus every uploaded key, minus every orphaned key. -/
theorem deploy_noFail_remote (rejects : String → Bool)
    (hrej : ∀ k, rejects k = false) (store : List PhotoRecord)
    (remote : List String) (cache : List (String × Nat)) :
    (deploy true rejects store remote cache).2.1
      = (remote ++
          (toUploadPhotos store remote).flatMap (missingKeys remote)).filter
          (fun k => decide (k ∉ toDeleteKeys store remote)) := by
  show (remote ++ ((toUploadPhotos store remote).filter
        (fun r => ! uploadRejected rejects r)).flatMap
          (missingKeys remote)).filter
      (fun k =>
        decide (k ∉ (toDeleteKeys store remote).filter (fun k => ! rejects k)))
    = _
  rw [filter_not_rejected_uploads rejects hrej,
    filter_not_rejected_keys rejects hrej]

/-- After a fully successful deploy, every desired key is on the remote. -/
theorem desired_subset_deploy_remote (rejects : String → Bool)
    (hrej : ∀ k, rejects k = false) (store : List PhotoRecord)
    (remote : List String) (cache : List (String × Nat)) (k : String)
    (hk : k ∈ desiredKeys store) :
    k ∈ (deploy true rejects store remote cache).2.1 := by
  rw [deploy_noFail_remote rejects hrej store remote cache]
  rw [List.mem_filter]
  constructor
  · rw [List.mem_append]
    by_cases hr : k ∈ remote
    · exact Or.inl hr
    · refine Or.inr ?_
      rw [List.mem_flatMap]
      obtain ⟨r, hrs, hpub, hor⟩ := (mem_desiredKeys store k).mp hk
      refine ⟨r, ?_, ?_⟩
      · unfold toUploadPhotos
        rw [List.mem_filter]
        refine ⟨List.mem_filter.mpr ⟨hrs, hpub⟩, ?_⟩
        simp
        rcases hor with rfl | rfl
        · exact Or.inl hr
        · exact Or.inr hr
      · rw [mem_missingKeys]
        rcases hor with rfl | rfl
        · exact Or.inl ⟨rfl, hr⟩
        · exact Or.inr ⟨rfl, hr⟩
  · simp
    unfold toDeleteKeys
    intro hmem
    rw [List.mem_filter] at hmem
    have := hmem.2
    simp at this
    exact absurd hk this

/-- After a fully successful deploy, every remote key is a desired key. -/
theorem deploy_remote_subset_desired (rejects : String → Bool)
    (hrej : ∀ k, rejects k = false) (store : List PhotoRecord)
    (remote : List String) (cache : List (String × Nat)) (k : String)
    (hk : k ∈ (deploy true rejects store remote cache).2.1) :
    k ∈ desiredKeys store := by
  rw [deploy_noFail_remote rejects hrej store remote cache] at hk
  rw [List.mem_filter] at hk
  obtain ⟨hmem, hpred⟩ := hk
  rw [List.mem_append] at hmem
  rcases hmem with hin | hup
  · by_contra hnot
    have : k ∈ toDeleteKeys store remote := by
      unfold toDeleteKeys
      rw [List.mem_filter]
      exact ⟨hin, by simp [hnot]⟩
    simp at hpred
    exact hpred this
  · rw [List.mem_flatMap] at hup
    obtain ⟨r, hrup, hkm⟩ := hup
    unfold toUploadPhotos at hrup
    rw [List.mem_filter, List.mem_filter] at hrup
    obtain ⟨⟨hrs, hpub⟩, _⟩ := hrup
    rw [mem_missingKeys] at hkm
    rw [mem_desiredKeys]
    rcases hkm with ⟨rfl, _⟩ | ⟨rfl, _⟩
    · exact ⟨r, hrs, hpub, Or.inl rfl⟩
    · exact ⟨r, hrs, hpub, Or.inr rfl⟩

/-- C2: against a remote store that accepts every operation, a second
`deploy()` with no intervening sync or edit changes computes an empty
`ToUpload` set and an empty `ToDelete` set, performs no put or delete
network operations (no uploaded or deleted files, remote listing
unchanged), and returns `uploaded = deleted = 0`. -/
theorem deploy_idempotent (rejects : String → Bool)
    (store : List PhotoRecord) (remote : List String)
    (cache : List (String × Nat)) (hrej : ∀ k, rejects k = false) :
    toUploadPhotos store (deploy true rejects store remote cache).2.1 = [] ∧
    toDeleteKeys store (deploy true rejects store remote cache).2.1 = [] ∧
    (deploy true rejects store (deploy true rejects store remote cache).2.1
        (deploy true rejects store remote cache).2.2).1.uploaded = 0 ∧
    (deploy true rejects store (deploy true rejects store remote cache).2.1
        (deploy true rejects store remote cache).2.2).1.deleted = 0 ∧
    (deploy true rejects store (deploy true rejects store remote cache).2.1
        (deploy true rejects store remote cache).2.2).1.uploaded_files
      = [] ∧
    (deploy true rejects store (deploy true rejects store remote cache).2.1
        (deploy true rejects store remote cache).2.2).1.deleted_files
      = [] ∧
    (deploy true rejects store (deploy true rejects store remote cache).2.1
        (deploy true rejects store remote cache).2.2).2.1
      = (deploy true rejects store remote cache).2.1 := by
  have hup : toUploadPhotos store
      (deploy true rejects store remote cache).2.1 = [] := by
    unfold toUploadPhotos
    rw [List.filter_eq_nil_iff]
    intro r hr
    rw [List.mem_filter] at hr
    simp
    constructor
    · exact desired_subset_deploy_remote rejects hrej store remote cache _
        ((mem_desiredKeys store _).mpr ⟨r, hr.1, hr.2, Or.inl rfl⟩)
    · exact desired_subset_deploy_remote rejects hrej store remote cache _
        ((mem_desiredKeys store _).mpr ⟨r, hr.1, hr.2, Or.inr rfl⟩)
  have hdel : toDeleteKeys store
      (deploy true rejects store remote cache).2.1 = [] := by
    unfold toDeleteKeys
    rw [List.filter_eq_nil_iff]
    intro k hk
    simp
    exact deploy_remote_subset_desired rejects hrej store remote cache k hk
  refine ⟨hup, hdel, ?_, ?_, ?_, ?_, ?_⟩
  · show ((((toUploadPhotos store
        (deploy true rejects store remote cache).2.1).filter
          (fun r => ! uploadRejected rejects r)).flatMap
        (missingKeys (deploy true rejects store remote cache).2.1)).length)
      = 0
    rw [hup]
    rfl
  · show (((toDeleteKeys store
        (deploy true rejects store remote cache).2.1).filter
          (fun k => ! rejects k)).length) = 0
    rw [hdel]
    rfl
  · show (((toUploadPhotos store
        (deploy true rejects store remote cache).2.1).filter
          (fun r => ! uploadRejected rejects r)).flatMap
        (missingKeys (deploy true rejects store remote cache).2.1))
      = []
    rw [hup]
    rfl
  · show ((toDeleteKeys store
        (deploy true rejects store remote cache).2.1).filter
          (fun k => ! rejects k)) = []
    rw [hdel]
    rfl
  · show (((deploy true rejects store remote cache).2.1 ++
        (((toUploadPhotos store
            (deploy true rejects store remote cache).2.1).filter
              (fun r => ! uploadRejected rejects r)).flatMap
            (missingKeys (deploy true rejects store remote cache).2.1))).filter
        (fun k => decide (k ∉ (toDeleteKeys store
            (deploy true rejects store remote cache).2.1).filter
              (fun k => ! rejects k))))
      = (deploy true rejects store remote cache).2.1
    rw [hup, hdel]
    simp

/-- Witness for C2: one published photo deployed onto an empty bucket, then
deployed again. -/
theorem deploy_idempotent_witness :
    toUploadPhotos
      [⟨"p.jpg", "p.jpg", "p.jpg", none, 1,
          ⟨"Unknown", "Unknown", "Unknown", "Unknown", "Unknown", "Unknown"⟩,
          true, "", "", [], ""⟩]
      (deploy true (fun _ => false)
        [⟨"p.jpg", "p.jpg", "p.jpg", none, 1,
            ⟨"Unknown", "Unknown", "Unknown", "Unknown", "Unknown", "Unknown"⟩,
            true, "", "", [], ""⟩] [] []).2.1 = [] ∧
    (deploy true (fun _ => false)
      [⟨"p.jpg", "p.jpg", "p.jpg", none, 1,
          ⟨"Unknown", "Unknown", "Unknown", "Unknown", "Unknown", "Unknown"⟩,
          true, "", "", [], ""⟩]
      (deploy true (fun _ => false)
        [⟨"p.jpg", "p.jpg", "p.jpg", none, 1,
            ⟨"Unknown", "Unknown", "Unknown", "Unknown", "Unknown", "Unknown"⟩,
            true, "", "", [], ""⟩] [] []).2.1
      (deploy true (fun _ => false)
        [⟨"p.jpg", "p.jpg", "p.jpg", none, 1,
            ⟨"Unknown", "Unknown", "Unknown", "Unknown", "Unknown", "Unknown"⟩,
            true, "", "", [], ""⟩] [] []).2.2).1.uploaded = 0 := by
  have h := deploy_idempotent (fun _ => false)
    [⟨"p.jpg", "p.jpg", "p.jpg", none, 1,
        ⟨"Unknown", "Unknown", "Unknown", "Unknown", "Unknown", "Unknown"⟩,
        true, "", "", [], ""⟩] [] [] (fun _ => rfl)
  exact ⟨h.1, h.2.2.1⟩

/-- C4: uploads are attempted independently.  With two published photos on
an empty bucket where the remote store rejects (at least) the first photo's
original upload and accepts both of the second photo's uploads, `deploy()`
still uploads the second photo's two objects (`uploaded = 2`, both keys on
the remote afterwards), records exactly one entry in `errors`, and still
returns `success = true`. -/
theorem deploy_partial_failure (p q : PhotoRecord) (rejects : String → Bool)
    (hp : p.published = true) (hq : q.published = true)
    (hrp : rejects (original_key p.id) = true)
    (hrq1 : rejects (original_key q.id) = false)
    (hrq2 : rejects (thumbnail_key q.id) = false) :
    (deploy true rejects [p, q] [] []).1.uploaded = 2 ∧
    (deploy true rejects [p, q] [] []).1.errors.length = 1 ∧
    (deploy true rejects [p, q] [] []).1.success = true ∧
    (deploy true rejects [p, q] [] []).1.uploaded_files
      = [original_key q.id, thumbnail_key q.id] ∧
    original_key q.id ∈ (deploy true rejects [p, q] [] []).2.1 ∧
    thumbnail_key q.id ∈ (deploy true rejects [p, q] [] []).2.1 := by
  have h2 : toUploadPhotos [p, q] [] = [p, q] := by
    unfold toUploadPhotos
    simp [hp, hq]
  have hok : [p, q].filter (fun r => ! uploadRejected rejects r) = [q] := by
    simp [uploadRejected, hrp, hrq1, hrq2]
  have hfail : [p, q].filter (fun r => uploadRejected rejects r) = [p] := by
    simp [uploadRejected, hrp, hrq1, hrq2]
  refine ⟨?_, ?_, rfl, ?_, ?_, ?_⟩
  · show (((toUploadPhotos [p, q] []).filter
        (fun r => ! uploadRejected rejects r)).flatMap
        (fun r => missingKeys [] r)).length = 2
    rw [h2, hok]
    rfl
  · show ((((toUploadPhotos [p, q] []).filter
          (fun r => uploadRejected rejects r)).map
          (fun r => "upload failed: " ++ r.id)) ++
        (((toDeleteKeys [p, q] []).filter (fun k => rejects k)).map
          (fun k => "delete failed: " ++ k))).length = 1
    rw [h2, hfail]
    rfl
  · show ((toUploadPhotos [p, q] []).filter
        (fun r => ! uploadRejected rejects r)).flatMap
        (fun r => missingKeys [] r)
      = [original_key q.id, thumbnail_key q.id]
    rw [h2, hok]
    rfl
  · show original_key q.id ∈
      (([] ++ ((toUploadPhotos [p, q] []).filter
          (fun r => ! uploadRejected rejects r)).flatMap
          (fun r => missingKeys [] r)).filter
        (fun k => decide (k ∉ (toDeleteKeys [p, q] []).filter
          (fun k => ! rejects k))))
    rw [h2, hok]
    simp [missingKeys, toDeleteKeys]
  · show thumbnail_key q.id ∈
      (([] ++ ((toUploadPhotos [p, q] []).filter
          (fun r => ! uploadRejected rejects r)).flatMap
          (fun r => missingKeys [] r)).filter
        (fun k => decide (k ∉ (toDeleteKeys [p, q] []).filter
          (fun k => ! rejects k))))
    rw [h2, hok]
    simp [missingKeys, toDeleteKeys]

/-- Witness for C4: concrete photos `p.jpg` and `q.jpg`, the remote
rejecting exactly the key `photos/p.jpg`. -/
theorem deploy_partial_failure_witness :
    (deploy true (fun k => k == "photos/p.jpg")
      [⟨"p.jpg", "p.jpg", "p.jpg", none, 1,
          ⟨"Unknown", "Unknown", "Unknown", "Unknown", "Unknown", "Unknown"⟩,
          true, "", "", [], ""⟩,
       ⟨"q.jpg", "q.jpg", "q.jpg", none, 1,
          ⟨"Unknown", "Unknown", "Unknown", "Unknown", "Unknown", "Unknown"⟩,
          true, "", "", [], ""⟩] [] []).1.uploaded = 2 ∧
    (deploy true (fun k => k == "photos/p.jpg")
      [⟨"p.jpg", "p.jpg", "p.jpg", none, 1,
          ⟨"Unknown", "Unknown", "Unknown", "Unknown", "Unknown", "Unknown"⟩,
          true, "", "", [], ""⟩,
       ⟨"q.jpg", "q.jpg", "q.jpg", none, 1,
          ⟨"Unknown", "Unknown", "Unknown", "Unknown", "Unknown", "Unknown"⟩,
          true, "", "", [], ""⟩] [] []).1.errors.length = 1 ∧
    (deploy true (fun k => k == "photos/p.jpg")
      [⟨"p.jpg", "p.jpg", "p.jpg", none, 1,
          ⟨"Unknown", "Unknown", "Unknown", "Unknown", "Unknown", "Unknown"⟩,
          true, "", "", [], ""⟩,
       ⟨"q.jpg", "q.jpg", "q.jpg", none, 1,
          ⟨"Unknown", "Unknown", "Unknown", "Unknown", "Unknown", "Unknown"⟩,
          true, "", "", [], ""⟩] [] []).1.success = true := by
  have h := deploy_partial_failure
    ⟨"p.jpg", "p.jpg", "p.jpg", none, 1,
        ⟨"Unknown", "Unknown", "Unknown", "Unknown", "Unknown", "Unknown"⟩,
        true, "", "", [], ""⟩
    ⟨"q.jpg", "q.jpg", "q.jpg", none, 1,
        ⟨"Unknown", "Unknown", "Unknown", "Unknown", "Unknown", "Unknown"⟩,
        true, "", "", [], ""⟩
    (fun k => k == "photos/p.jpg") rfl rfl (by decide) (by decide) (by decide)
  exact ⟨h.1, h.2.1, h.2.2.1⟩
